import Mathlib

/-!
Verification of the libautomotive protocol stack against its specification.

Shallow embedding conventions:
* Machine integers (u8/u16/u32/usize) are modelled as Nat with explicit
  truncation (% 256, % 2^32, ...) exactly where the Rust code truncates
  (release-profile wrapping semantics).
* Byte sequences (Vec<u8>) are List Nat.
* Fallible operations return Except AutomotiveError.
* Real-time waits (std::time sleeps and timeouts) carry no data, so they are
  not modelled; a receive loop that polls until a timeout is modelled as a
  scan over the finite list of frames that arrive during the wait, with
  exhaustion of the list standing for expiry of the timer.
* Writes to the physical/transport layer are collected in an output list, in
  the order the code issues them.
-/

namespace LibAutomotive

/-- Error kinds (src/error.rs), restricted to the variants the embedded
operations can produce. -/
inductive AutomotiveError where
  | CanError (msg : String)
  | IsoTpError (msg : String)
  | J1939Error (msg : String)
  | UdsError (msg : String)
  | ObdError (msg : String)
  | Timeout
  | BufferOverflow
  | InvalidParameter
  | NotInitialized
  deriving Repr, DecidableEq

/-- CAN frame (src/types.rs). `data` bytes are Nat values below 256 and
`id` is a Nat below 2^32 in every frame the embedded code builds. -/
structure Frame where
  id : Nat
  data : List Nat
  timestamp : Nat
  is_extended : Bool
  is_fd : Bool
  deriving Repr, DecidableEq

end LibAutomotive

namespace LibAutomotive.Obd

/-- Letter selection in Obd::read_dtc (src/application/obdii.rs): the top two
bits of the first DTC byte select the letter. The Rust `match` on
`(chunk[0] >> 6) & 0x03` has arms 0..3 plus an unreachable wildcard; the
wildcard arm here can only be taken for the value 3. -/
def dtc_first_char (b0 : Nat) : Char :=
  match (b0 >>> 6) &&& 0x03 with
  | 0 => 'P'
  | 1 => 'C'
  | 2 => 'B'
  | _ => 'U'

/-- One DTC string as produced by the `format!` in Obd::read_dtc: the letter
followed by the four field values rendered with the `Display` (decimal)
formatter, exactly as `format!("{}{}{}{}{}", ..)` renders u8 values. -/
def dtc_string (b0 b1 : Nat) : String :=
  String.mk [dtc_first_char b0]
    ++ toString ((b0 >>> 4) &&& 0x03)
    ++ toString (b0 &&& 0x0F)
    ++ toString ((b1 >>> 4) &&& 0x0F)
    ++ toString (b1 &&& 0x0F)

/-- The decoding loop of Obd::read_dtc over the response payload:
`response.data.chunks(2)` with the `chunk.len() == 2` filter keeps exactly
the full 2-byte words and drops a trailing odd byte. -/
def read_dtc_decode : List Nat → List String
  | b0 :: b1 :: rest => dtc_string b0 b1 :: read_dtc_decode rest
  | _ => []

end LibAutomotive.Obd

namespace LibAutomotive.IsoTp

/-- The separation delay, in microseconds, that IsoTp::send_multi_frame
performs between two Consecutive Frames for a given STmin byte
(src/transport/isotp.rs lines 193-200).  `st_min <= 0x7F` sleeps that many
milliseconds; `0xF1..=0xF9` sleeps `(st_min - 0xF0) * 100` microseconds,
where the multiplication is performed on u8 values and therefore wraps
modulo 256 (release profile; a debug build would panic on the overflow for
0xF3..=0xF9); any other value falls through both branches and performs no
sleep at all. -/
def st_min_delay_micros (st_min : Nat) : Nat :=
  if st_min ≤ 0x7F then st_min * 1000
  else if 0xF1 ≤ st_min ∧ st_min ≤ 0xF9 then ((st_min - 0xF0) * 100) % 256
  else 0

/-- Modelled from the spec (section 4.2, claim C5 wording): STmin decoding
with `0x00..=0x7F` meaning milliseconds, `0xF1..=0xF9` meaning
`(value - 0xF0) * 100` microseconds, and every other value meaning the safe
default of 1 ms. Stated for comparison with `st_min_delay_micros`. -/
def spec_st_min_delay_micros (st_min : Nat) : Nat :=
  if st_min ≤ 0x7F then st_min * 1000
  else if 0xF1 ≤ st_min ∧ st_min ≤ 0xF9 then (st_min - 0xF0) * 100
  else 1000

end LibAutomotive.IsoTp

namespace LibAutomotive.J1939

open LibAutomotive

/-- J1939 address (src/types.rs). All fields are machine integers in the
source (`priority: u8, pgn: u32, source: u8, destination: u8`). -/
structure Address where
  priority : Nat
  pgn : Nat
  source : Nat
  destination : Nat
  deriving Repr, DecidableEq

/-- Decoded J1939 message (src/network/j1939.rs). -/
structure J1939Message where
  address : Address
  data : List Nat
  timestamp : Nat
  deriving Repr, DecidableEq

/-- J1939::build_frame. The 29-bit identifier is assembled in u32
arithmetic: `(priority as u32) << 26 | (pgn as u32) << 8 | source`, with the
source byte taken from the node state `current_address.unwrap_or(0xFF)`,
not from the address argument.  Rust's `<<` on u32 discards bits shifted
past bit 31, hence the explicit reductions modulo 2^32. -/
def build_frame (current_address : Option Nat) (address : Address) (data : List Nat) : Frame :=
  { id := (((address.priority <<< 26) % 2 ^ 32) ||| ((address.pgn <<< 8) % 2 ^ 32))
          ||| current_address.getD 0xFF
    data := data
    timestamp := 0
    is_extended := true
    is_fd := false }

/-- J1939::parse_frame. Destination reconstruction checks `pgn & 0xFF00 == 0`
(PDU format byte equal to zero), in which case the low PGN byte is the
destination; otherwise the destination is the broadcast address 0xFF. -/
def parse_frame (frame : Frame) : Except AutomotiveError J1939Message :=
  if !frame.is_extended then
    .error (.J1939Error "Not an extended frame")
  else
    let priority := (frame.id >>> 26) &&& 0x7
    let pgn := (frame.id >>> 8) &&& 0x3FFFF
    let source := frame.id &&& 0xFF
    let destination := if pgn &&& 0xFF00 = 0 then pgn &&& 0xFF else 0xFF
    .ok { address := { priority := priority, pgn := pgn,
                       source := source, destination := destination }
          data := frame.data
          timestamp := frame.timestamp }

end LibAutomotive.J1939

namespace LibAutomotive.Uds

open LibAutomotive

/-- UDS session types (src/application/uds.rs). -/
inductive UdsSessionType where
  | Default
  | Programming
  | Extended
  | SafetySystem
  deriving Repr, DecidableEq

/-- Discriminant values of UdsSessionType (`session_type as u8`). -/
def UdsSessionType.toByte : UdsSessionType → Nat
  | .Default => 0x01
  | .Programming => 0x02
  | .Extended => 0x03
  | .SafetySystem => 0x04

/-- UDS request message. -/
structure UdsRequest where
  service_id : Nat
  parameters : List Nat
  deriving Repr, DecidableEq

/-- UDS response message. -/
structure UdsResponse where
  service_id : Nat
  data : List Nat
  deriving Repr, DecidableEq

/-- UDS session status.  The source also stores `last_activity:
std::time::Instant`; wall-clock time is not modelled, so the operations that
branch on elapsed time take the outcome of that comparison as an explicit
Boolean input instead. -/
structure SessionStatus where
  session_type : UdsSessionType
  security_level : Nat
  tester_present_sent : Bool
  deriving Repr, DecidableEq

/-- SessionStatus::default(). -/
def SessionStatus.default : SessionStatus :=
  { session_type := .Default, security_level := 0, tester_present_sent := false }

/-- UDS configuration (all fields are u32 milliseconds in the source). -/
structure UdsConfig where
  timeout_ms : Nat
  p2_timeout_ms : Nat
  p2_star_timeout_ms : Nat
  s3_client_timeout_ms : Nat
  tester_present_interval_ms : Nat
  deriving Repr, DecidableEq

/-- UdsConfig::default(). -/
def UdsConfig.default : UdsConfig :=
  { timeout_ms := 1000, p2_timeout_ms := 5000, p2_star_timeout_ms := 5000,
    s3_client_timeout_ms := 5000, tester_present_interval_ms := 2000 }

/-- The engine state of Uds<T>.  The generic transport is modelled as a
perfect peer: `transport.write_frame` always succeeds, and each
`transport.read_frame` yields the next element of an explicit oracle list of
response payloads (an exhausted oracle stands for a transport read failure —
modelled as Timeout).  `transport_open` records whether `transport.open` has
been called and never un-called, which is observable because `Uds::close`
never closes the transport. -/
structure UdsState where
  config : UdsConfig
  status : SessionStatus
  is_open : Bool
  handling_session_timing : Bool
  transport_open : Bool
  deriving Repr, DecidableEq

/-- Uds::with_transport: the initial engine state. -/
def with_transport (config : UdsConfig) : UdsState :=
  { config := config, status := SessionStatus.default, is_open := false,
    handling_session_timing := false, transport_open := false }

/-- The test in Uds::send_request for a response-pending negative response:
`data.len() >= 3 && data[0] == 0x7F && data[1] == sid && data[2] == 0x78`. -/
def is_response_pending (sid : Nat) (r : List Nat) : Prop :=
  3 ≤ r.length ∧ r.getD 0 0 = 0x7F ∧ r.getD 1 0 = sid ∧ r.getD 2 0 = 0x78

instance (sid : Nat) (r : List Nat) : Decidable (is_response_pending sid r) := by
  unfold is_response_pending; infer_instance

/-- The retry loop of Uds::send_request.  `retry_count` counts the pending
responses seen so far (max_retries = 5 in the source); each iteration reads
one frame from the oracle.  The re-send of the request and the inter-attempt
sleeps transfer no data and are not modelled.  Returns the result together
with the unconsumed remainder of the oracle. -/
def send_request_loop (req : UdsRequest) :
    List (List Nat) → Nat → Except AutomotiveError UdsResponse × List (List Nat)
  | [], _ => (.error .Timeout, [])
  | r :: rest, retry_count =>
    if r.isEmpty then (.error .InvalidParameter, rest)
    else if is_response_pending req.service_id r then
      if retry_count + 1 ≥ 5 then (.ok { service_id := 0x7E, data := [0x00] }, rest)
      else send_request_loop req rest (retry_count + 1)
    else (.ok { service_id := r.headD 0, data := r.tail }, rest)

/-- Uds::send_request.  Writes the request frame (not modelled further: the
transport accepts it), then runs the response-pending retry loop.  The
function never assigns to any field of `self`, so no state is returned. -/
def send_request (s : UdsState) (req : UdsRequest) (responses : List (List Nat)) :
    Except AutomotiveError UdsResponse × List (List Nat) :=
  if !s.is_open then (.error .NotInitialized, responses)
  else send_request_loop req responses 0

/-- Uds::change_session. -/
def change_session (s : UdsState) (session_type : UdsSessionType)
    (responses : List (List Nat)) :
    UdsState × Except AutomotiveError Unit × List (List Nat) :=
  match send_request s { service_id := 0x10, parameters := [session_type.toByte] } responses with
  | (.error e, rest) => (s, .error e, rest)
  | (.ok response, rest) =>
    if response.data.isEmpty then (s, .error .InvalidParameter, rest)
    else ({ s with status := { s.status with session_type := session_type } }, .ok (), rest)

/-- Uds::ecu_reset.  Never writes to the session status. -/
def ecu_reset (s : UdsState) (reset_type : Nat) (responses : List (List Nat)) :
    UdsState × Except AutomotiveError Unit × List (List Nat) :=
  match send_request s { service_id := 0x11, parameters := [reset_type] } responses with
  | (.error e, rest) => (s, .error e, rest)
  | (.ok response, rest) =>
    if response.data.isEmpty then (s, .ok (), rest)
    else (s, .error (.UdsError "Failed to reset ECU"), rest)

/-- Uds::security_access.  Requests a seed with sub-function `2*level - 1`
(u8 arithmetic, hence the wrap-around form `(2*level + 255) % 256`), sends
the computed key, and on an empty positive key response sets
`security_level := level` — in whatever session the engine currently is. -/
def security_access (s : UdsState) (level : Nat) (key_fn : List Nat → List Nat)
    (responses : List (List Nat)) :
    UdsState × Except AutomotiveError Unit × List (List Nat) :=
  match send_request s { service_id := 0x27, parameters := [(2 * level + 255) % 256] } responses with
  | (.error e, rest) => (s, .error e, rest)
  | (.ok response, rest) =>
    if response.data.isEmpty then (s, .error (.UdsError "Failed to get seed"), rest)
    else
      match send_request s { service_id := 0x27, parameters := key_fn response.data } rest with
      | (.error e, rest2) => (s, .error e, rest2)
      | (.ok response2, rest2) =>
        if response2.data.isEmpty then
          ({ s with status := { s.status with security_level := level } }, .ok (), rest2)
        else (s, .error (.UdsError "Invalid key"), rest2)

/-- Uds::tester_present.  `s3_expired` is the outcome of the wall-clock
comparison `now - last_activity > s3_client_timeout_ms`; when the session is
non-Default and the S3 timer has expired the whole status is reset to its
default.  Otherwise the request frame is written (suppress positive
response, no read) and `tester_present_sent` is set. -/
def tester_present (s : UdsState) (s3_expired : Bool) :
    UdsState × Except AutomotiveError Unit :=
  if s.status.session_type ≠ .Default ∧ s3_expired then
    ({ s with status := SessionStatus.default }, .ok ())
  else
    ({ s with status := { s.status with tester_present_sent := true } }, .ok ())

/-- Uds::open (ApplicationLayer impl): opens the transport and sets
`is_open`. -/
def openEngine (s : UdsState) : UdsState × Except AutomotiveError Unit :=
  if s.is_open then (s, .ok ())
  else ({ s with transport_open := true, is_open := true }, .ok ())

/-- Uds::close (ApplicationLayer impl): the body is exactly
`self.is_open = false; Ok(())` — the transport is not closed and no other
field is written. -/
def closeEngine (s : UdsState) : UdsState × Except AutomotiveError Unit :=
  ({ s with is_open := false }, .ok ())

/-- One public operation of the UDS engine, with the transport responses it
will consume (and, for tester_present, the S3 wall-clock outcome) packaged
as oracle data.  The remaining public services (read_data_by_id,
write_data_by_id, routine_control, io_control, read_memory, write_memory,
request_download/transfer_data) only call send_request, which never writes
to the engine state; `sendRequest` stands for all of them in the state
machine. -/
inductive UdsOp where
  | openOp
  | closeOp
  | changeSession (t : UdsSessionType) (rs : List (List Nat))
  | ecuReset (reset_type : Nat) (rs : List (List Nat))
  | securityAccess (level : Nat) (key_fn : List Nat → List Nat) (rs : List (List Nat))
  | testerPresent (s3_expired : Bool)
  | sendRequest (req : UdsRequest) (rs : List (List Nat))

/-- Whether an operation is a security_access call. -/
def UdsOp.isSecurityAccess : UdsOp → Bool
  | .securityAccess _ _ _ => true
  | _ => false

/-- The state reached after one public operation. -/
def step (s : UdsState) : UdsOp → UdsState
  | .openOp => (openEngine s).1
  | .closeOp => (closeEngine s).1
  | .changeSession t rs => (change_session s t rs).1
  | .ecuReset rt rs => (ecu_reset s rt rs).1
  | .securityAccess level key_fn rs => (security_access s level key_fn rs).1
  | .testerPresent s3 => (tester_present s s3).1
  | .sendRequest _ _ => s

/-- The state reached after a sequence of public operations. -/
def apply_ops (s : UdsState) (ops : List UdsOp) : UdsState :=
  ops.foldl step s

end LibAutomotive.Uds

namespace LibAutomotive.IsoTp

open LibAutomotive

/-- ISO-TP address modes (src/transport/isotp.rs). -/
inductive AddressMode where
  | Normal
  | Extended
  | Mixed
  deriving Repr, DecidableEq

/-- ISO-TP configuration.  The `timing` struct (n_as/n_ar/n_bs/n_cr) holds
wall-clock timeouts; the corresponding receive-until-deadline loops are
modelled as scans over the finite list of frames arriving during the wait,
so the millisecond values themselves do not appear in the model. -/
structure IsoTpConfig where
  tx_id : Nat
  rx_id : Nat
  block_size : Nat
  st_min : Nat
  max_frame_size : Nat
  address_mode : AddressMode
  address_extension : Nat
  padding_value : Nat
  use_padding : Bool
  deriving Repr, DecidableEq

/-- The IsoTp<P> instance state: its configuration and the `is_open` flag
(the physical layer is the external frame pipe). -/
structure IsoTpState where
  config : IsoTpConfig
  is_open : Bool
  deriving Repr, DecidableEq

def SF_PCI : Nat := 0x00
def FF_PCI : Nat := 0x10
def CF_PCI : Nat := 0x20
def FC_PCI : Nat := 0x30

/-- IsoTp::apply_padding: right-pad the frame data to 8 bytes with
`padding_value` when padding is enabled. -/
def apply_padding (cfg : IsoTpConfig) (data : List Nat) : List Nat :=
  if cfg.use_padding then data ++ List.replicate (8 - data.length) cfg.padding_value
  else data

/-- IsoTp::send_frame_with_addressing: the frame as it appears on the wire. -/
def send_frame_with_addressing (cfg : IsoTpConfig) (frame : Frame) : Frame :=
  match cfg.address_mode with
  | .Normal => frame
  | .Extended => { frame with data := cfg.address_extension :: frame.data }
  | .Mixed => { frame with id := (frame.id &&& 0xFFFFFF00) ||| cfg.address_extension }

/-- IsoTp::receive_frame_with_addressing. -/
def receive_frame_with_addressing (cfg : IsoTpConfig) (frame : Frame) :
    Except AutomotiveError Frame :=
  match cfg.address_mode with
  | .Normal => .ok frame
  | .Extended =>
    match frame.data with
    | [] => .error (.IsoTpError "Empty frame in extended addressing")
    | b :: rest =>
      if b ≠ cfg.address_extension then .error (.IsoTpError "Invalid address extension")
      else .ok { frame with data := rest }
  | .Mixed =>
    if frame.id &&& 0xFF ≠ cfg.address_extension then
      .error (.IsoTpError "Invalid address extension")
    else .ok frame

/-- The receive-until-deadline scan common to the Flow Control and
Consecutive Frame waits: keep reading frames, skipping any frame the
addressing check rejects and any frame whose PCI high nibble differs from
`pci`, until a matching frame is found (returned with the unread rest) or
the arrival list is exhausted (the timer expires). -/
def wait_for_pci (cfg : IsoTpConfig) (pci : Nat) :
    List Frame → Option (Frame × List Frame)
  | [] => none
  | f :: rest =>
    match receive_frame_with_addressing cfg f with
    | .ok g =>
      if ¬g.data.isEmpty ∧ g.data.headD 0 &&& 0xF0 = pci then some (g, rest)
      else wait_for_pci cfg pci rest
    | .error _ => wait_for_pci cfg pci rest

/-- The scan in IsoTp::receive: the first frame the addressing check
accepts, whatever its PCI. -/
def wait_any (cfg : IsoTpConfig) : List Frame → Option (Frame × List Frame)
  | [] => none
  | f :: rest =>
    match receive_frame_with_addressing cfg f with
    | .ok g => some (g, rest)
    | .error _ => wait_any cfg rest

/-- IsoTp::send_single_frame: build `[0x0L, D0..]`, pad, apply addressing.
`data.len() as u8` is the u8 cast of the length. -/
def send_single_frame (cfg : IsoTpConfig) (data : List Nat) : Frame :=
  send_frame_with_addressing cfg
    { id := cfg.tx_id
      data := apply_padding cfg ((SF_PCI ||| data.length % 256) :: data)
      timestamp := 0, is_extended := false, is_fd := false }

/-- The Consecutive Frame of a transfer of `data` at offset `index` with the
given sequence nibble, exactly as IsoTp::send_multi_frame builds it:
`[0x2S, next min(remaining, 7) bytes]`, padded, with addressing applied. -/
def cf_frame (cfg : IsoTpConfig) (data : List Nat) (index sequence : Nat) : Frame :=
  send_frame_with_addressing cfg
    { id := cfg.tx_id
      data := apply_padding cfg
        ((CF_PCI ||| sequence) :: (data.drop index).take (min (data.length - index) 7))
      timestamp := 0, is_extended := false, is_fd := false }

/-- The Consecutive Frame loop of IsoTp::send_multi_frame.  `block_size` is
the byte taken from the first Flow Control frame; after every `block_size`
frames (when non-zero) the loop blocks for another FC frame from `stream`
(whose contents are ignored).  The STmin sleep between frames transfers no
data (see `st_min_delay_micros`).  Returns the wire frames emitted, in
order, paired with the loop result; on a flow-control timeout the frames
already emitted are still reported. -/
def send_consecutive_frames (cfg : IsoTpConfig) (data : List Nat)
    (block_size : Nat) (stream : List Frame)
    (index sequence frames_sent : Nat) :
    List Frame × Except AutomotiveError Unit :=
  if index < data.length then
    if block_size > 0 ∧ frames_sent + 1 = block_size then
      match wait_for_pci cfg FC_PCI stream with
      | none => ([cf_frame cfg data index sequence], .error (.IsoTpError "Flow control timeout"))
      | some (_, stream2) =>
        match send_consecutive_frames cfg data block_size stream2
            (index + min (data.length - index) 7) ((sequence + 1) &&& 0x0F) 0 with
        | (frames, result) => (cf_frame cfg data index sequence :: frames, result)
    else
      match send_consecutive_frames cfg data block_size stream
          (index + min (data.length - index) 7) ((sequence + 1) &&& 0x0F)
          (frames_sent + 1) with
      | (frames, result) => (cf_frame cfg data index sequence :: frames, result)
  else ([], .ok ())
termination_by data.length - index
decreasing_by
  · omega
  · omega

/-- The First Frame of a transfer, as IsoTp::send_multi_frame builds it: the
12-bit length split as `FF_PCI | (len >> 8) as u8` and `len as u8`, then
the first six payload bytes, padded, with addressing applied. -/
def ff_frame (cfg : IsoTpConfig) (data : List Nat) : Frame :=
  send_frame_with_addressing cfg
    { id := cfg.tx_id
      data := apply_padding cfg
        ((FF_PCI ||| (data.length >>> 8) % 256) :: (data.length % 256) :: data.take 6)
      timestamp := 0, is_extended := false, is_fd := false }

/-- IsoTp::send_multi_frame: emit the First Frame, wait for a Flow Control
frame, take `block_size = fc.data[1]` (and `st_min = fc.data[2]`) from it —
whatever its flow-status nibble — and run the Consecutive Frame loop.
Indexing `fc.data[1]`/`fc.data[2]` panics in Rust when the FC frame is
shorter than 3 bytes; that case (modelled with getD 0) does not arise in
the runs considered here. -/
def send_multi_frame (cfg : IsoTpConfig) (data : List Nat) (stream : List Frame) :
    List Frame × Except AutomotiveError Unit :=
  match wait_for_pci cfg FC_PCI stream with
  | none => ([ff_frame cfg data], .error (.IsoTpError "Flow control timeout"))
  | some (fc, stream2) =>
    match send_consecutive_frames cfg data (fc.data.getD 1 0) stream2 6 1 0 with
    | (frames, result) => (ff_frame cfg data :: frames, result)

/-- IsoTp::send (TransportLayer impl).  Returns the (unmodified) instance
state, the wire frames handed to the physical layer in order, and the
result.  The source never assigns to `self.config` or `self.is_open` inside
send, which the identity on the state component reflects. -/
def send (t : IsoTpState) (data : List Nat) (stream : List Frame) :
    IsoTpState × List Frame × Except AutomotiveError Unit :=
  if !t.is_open then (t, [], .error .NotInitialized)
  else if data.isEmpty then (t, [], .error .InvalidParameter)
  else if data.length ≤ 7 then (t, [send_single_frame t.config data], .ok ())
  else
    match send_multi_frame t.config data stream with
    | (frames, result) => (t, frames, result)

/-- IsoTp::receive_single_frame.  `len` is the low nibble of the PCI byte;
the source computes `frame.data.len() - 1` in usize (the caller guarantees
a non-empty frame). -/
def receive_single_frame (frame : Frame) : Except AutomotiveError (List Nat) :=
  if frame.data.headD 0 &&& 0x0F = 0
      ∨ frame.data.headD 0 &&& 0x0F > frame.data.length - 1 then
    .error (.IsoTpError "Invalid SF length")
  else .ok ((frame.data.drop 1).take (frame.data.headD 0 &&& 0x0F))

/-- The Flow Control frame IsoTp::receive_multi_frame sends, as it appears
on the wire: `[0x30, block_size, st_min]`, padded, with addressing applied.
(The source puts `tx_id` on it.) -/
def fc_wire (cfg : IsoTpConfig) : Frame :=
  send_frame_with_addressing cfg
    { id := cfg.tx_id
      data := apply_padding cfg [FC_PCI, cfg.block_size, cfg.st_min]
      timestamp := 0, is_extended := false, is_fd := false }

/-- The Consecutive Frame loop of IsoTp::receive_multi_frame: wait for each
CF (the scan skips rejected and non-CF frames), check its sequence nibble,
append `min(len - got, 7)` payload bytes, and after every `block_size`
frames (when non-zero) send another Flow Control frame.  Returns the FC
frames emitted, in order, paired with the result.  Rust indexes
`cf.data[1..chunk_size + 1]` and panics when the frame is shorter; the
`take` model delivers the available bytes instead — the case does not arise
in the runs considered here. -/
def receive_consecutive_frames (cfg : IsoTpConfig) (len : Nat) :
    List Nat → Nat → Nat → List Frame → List Frame × Except AutomotiveError (List Nat)
  | acc, expected_sequence, frames_received, stream =>
    if acc.length < len then
      match stream with
      | [] => ([], .error (.IsoTpError "Consecutive frame timeout"))
      | f :: rest =>
        match receive_frame_with_addressing cfg f with
        | .error _ =>
          receive_consecutive_frames cfg len acc expected_sequence frames_received rest
        | .ok cf =>
          if ¬cf.data.isEmpty ∧ cf.data.headD 0 &&& 0xF0 = CF_PCI then
            if cf.data.headD 0 &&& 0x0F ≠ expected_sequence then
              ([], .error (.IsoTpError "Wrong sequence number"))
            else
              if cfg.block_size > 0 ∧ frames_received + 1 = cfg.block_size then
                match receive_consecutive_frames cfg len
                    (acc ++ (cf.data.drop 1).take (min (len - acc.length) 7))
                    ((expected_sequence + 1) &&& 0x0F) 0 rest with
                | (fcs, result) => (fc_wire cfg :: fcs, result)
              else
                receive_consecutive_frames cfg len
                  (acc ++ (cf.data.drop 1).take (min (len - acc.length) 7))
                  ((expected_sequence + 1) &&& 0x0F) (frames_received + 1) rest
          else
            receive_consecutive_frames cfg len acc expected_sequence frames_received rest
    else ([], .ok acc)

/-- The 12-bit length reconstruction of IsoTp::receive_multi_frame:
`((data[0] & 0x0F) << 8) | data[1]`.  (Below, `receive_multi_frame` rejects
lengths under 8, seeds the buffer with the six First Frame payload bytes,
sends the initial Flow Control frame, and runs the CF loop; `data[2..8]`
panics in Rust when the FF frame is shorter than 8 bytes — the takes model
the in-range case.) -/
def ff_len (frame : Frame) : Nat :=
  ((frame.data.headD 0 &&& 0x0F) <<< 8) ||| frame.data.getD 1 0

/-- IsoTp::receive_multi_frame body (see `ff_len` for the 12-bit length
reconstruction). -/
def receive_multi_frame (cfg : IsoTpConfig) (first_frame : Frame) (stream : List Frame) :
    List Frame × Except AutomotiveError (List Nat) :=
  if ff_len first_frame < 8 then ([], .error (.IsoTpError "Invalid FF length"))
  else
    match receive_consecutive_frames cfg (ff_len first_frame)
        ((first_frame.data.drop 2).take 6) 1 0 stream with
    | (fcs, result) => (fc_wire cfg :: fcs, result)

/-- IsoTp::receive (TransportLayer impl): take the first frame the
addressing check accepts, dispatch on its PCI high nibble.  Returns the FC
frames written to the physical layer together with the result. -/
def receive (t : IsoTpState) (stream : List Frame) :
    List Frame × Except AutomotiveError (List Nat) :=
  if !t.is_open then ([], .error .NotInitialized)
  else
    match wait_any t.config stream with
    | none => ([], .error (.IsoTpError "Receive timeout"))
    | some (frame, rest) =>
      if frame.data.isEmpty then ([], .error (.IsoTpError "Empty frame"))
      else if frame.data.headD 0 &&& 0xF0 = SF_PCI then ([], receive_single_frame frame)
      else if frame.data.headD 0 &&& 0xF0 = FF_PCI then receive_multi_frame t.config frame rest
      else ([], .error (.IsoTpError "Invalid PCI"))

/-- The number of Flow Control frames the CF loop of the sender blocks for
(equivalently, the number the receiver emits during its CF loop): one after
every `block_size` Consecutive Frames when `block_size > 0`. -/
def fc_needed (len index frames_sent block_size : Nat) : Nat :=
  if index < len then
    if block_size > 0 ∧ frames_sent + 1 = block_size then
      1 + fc_needed len (index + min (len - index) 7) 0 block_size
    else fc_needed len (index + min (len - index) 7) (frames_sent + 1) block_size
  else 0
termination_by len - index
decreasing_by
  · omega
  · omega

/-- The total number of Flow Control frames exchanged when sending `b`: none
for a Single Frame transfer, and one (after the First Frame) plus the CF
loop count otherwise. -/
def fc_total (cfg : IsoTpConfig) (b : List Nat) : Nat :=
  if b.length ≤ 7 then 0 else 1 + fc_needed b.length 6 0 cfg.block_size

end LibAutomotive.IsoTp

namespace LibAutomotive

/-- A pending negative response frame `[0x7F, SID, 0x78]` for a given
service id. -/
def pending_response (sid : Nat) : List Nat := [0x7F, sid, 0x78]

/-- A freshly opened UDS engine over the default configuration, as produced
by `with_transport` followed by `open`. -/
def uds_open_state : Uds.UdsState :=
  (Uds.openEngine (Uds.with_transport Uds.UdsConfig.default)).1

/-- A concrete ISO-TP configuration with normal addressing and no padding,
used to evaluate the embedded code on concrete runs. -/
def sample_isotp_config : IsoTp.IsoTpConfig :=
  { tx_id := 0x7E0, rx_id := 0x7E8, block_size := 0, st_min := 0,
    max_frame_size := 4095, address_mode := .Normal, address_extension := 0,
    padding_value := 0x55, use_padding := false }

end LibAutomotive

namespace LibAutomotive

/-! ## Arithmetic helper lemmas for the bit-level wire formats -/

theorem lor_shl_and_shl (m a n k : Nat) (ha : a < 2 ^ k) :
    ((m <<< k) ||| a) &&& (n <<< k) = (m &&& n) <<< k := by
  apply Nat.eq_of_testBit_eq
  intro i
  by_cases hik : k ≤ i
  · have hbit : a.testBit i = false :=
      Nat.testBit_lt_two_pow (lt_of_lt_of_le ha (Nat.pow_le_pow_right (by norm_num) hik))
    simp [Nat.testBit_and, Nat.testBit_or, Nat.testBit_shiftLeft, hik, hbit]
  · simp [Nat.testBit_and, Nat.testBit_or, Nat.testBit_shiftLeft, hik]

theorem lor_shl_and_mask_low (m a k : Nat) (ha : a < 2 ^ k) :
    ((m <<< k) ||| a) &&& (2 ^ k - 1) = a := by
  rw [Nat.and_pow_two_sub_one_eq_mod, Nat.shiftLeft_eq, Nat.mul_comm,
    ← Nat.mul_add_lt_is_or ha m, Nat.mul_add_mod, Nat.mod_eq_of_lt ha]

theorem or32_and_hi {s : Nat} (hs : s < 16) : (32 ||| s) &&& 240 = 32 :=
  lor_shl_and_shl 2 s 15 4 hs

theorem or32_and_lo {s : Nat} (hs : s < 16) : (32 ||| s) &&& 15 = s :=
  lor_shl_and_mask_low 2 s 4 hs

theorem or16_and_hi {s : Nat} (hs : s < 16) : (16 ||| s) &&& 240 = 16 :=
  lor_shl_and_shl 1 s 15 4 hs

theorem or16_and_lo {s : Nat} (hs : s < 16) : (16 ||| s) &&& 15 = s :=
  lor_shl_and_mask_low 1 s 4 hs

theorem and240_of_lt16 {s : Nat} (hs : s < 16) : s &&& 240 = 0 := by
  have h := lor_shl_and_shl 0 s 15 4 hs
  simpa using h

theorem and15_of_lt16 {s : Nat} (hs : s < 16) : s &&& 15 = s := by
  have h : s &&& 2 ^ 4 - 1 = s % 2 ^ 4 := Nat.and_pow_two_sub_one_eq_mod s 4
  simpa [Nat.mod_eq_of_lt hs] using h

theorem and_15_lt (x : Nat) : x &&& 15 < 16 := by
  have h : x &&& 2 ^ 4 - 1 = x % 2 ^ 4 := Nat.and_pow_two_sub_one_eq_mod x 4
  norm_num at h
  omega

end LibAutomotive

namespace LibAutomotive

/-! ## C5: ISO-TP STmin decoding -/

/-- C5 counterexample: the claim states that every STmin byte outside
`0x00..=0x7F` and `0xF1..=0xF9` yields a safe default delay of 1 ms, but at
the concrete byte 0x80 the code performs no delay at all (neither branch of
the if/else-if fires and there is no else). -/
theorem c5_st_min_decode_counterexample :
    IsoTp.st_min_delay_micros 0x80 = 0 ∧ IsoTp.spec_st_min_delay_micros 0x80 = 1000 ∧
      IsoTp.st_min_delay_micros 0x80 ≠ IsoTp.spec_st_min_delay_micros 0x80 := by
  refine ⟨by decide, by decide, by decide⟩

/-- C5 (amended): between Consecutive Frames the sender waits a delay that is
a total function of the STmin byte: values 0x00..=0x7F mean that many
milliseconds; values 0xF1..=0xF9 mean ((value − 0xF0) × 100 mod 256)
microseconds — the multiplication is performed in 8-bit arithmetic so values
0xF3..=0xF9 wrap; every other value yields no delay at all (0, not the 1 ms
default the claim states). -/
theorem c5_st_min_decode_amended :
    (∀ st_min : Nat, st_min ≤ 0x7F → IsoTp.st_min_delay_micros st_min = st_min * 1000) ∧
    (∀ st_min : Nat, 0xF1 ≤ st_min → st_min ≤ 0xF9 →
      IsoTp.st_min_delay_micros st_min = ((st_min - 0xF0) * 100) % 256) ∧
    (∀ st_min : Nat, (0x7F < st_min ∧ st_min < 0xF1) ∨ 0xF9 < st_min →
      IsoTp.st_min_delay_micros st_min = 0) := by
  refine ⟨?_, ?_, ?_⟩
  · intro st h
    simp [IsoTp.st_min_delay_micros, h]
  · intro st h1 h2
    have h3 : ¬st ≤ 0x7F := by omega
    simp [IsoTp.st_min_delay_micros, h3, h1, h2]
  · intro st h
    have h1 : ¬(0xF1 ≤ st ∧ st ≤ 0xF9) := by omega
    rcases h with h2 | h2
    · have h3 : ¬st ≤ 0x7F := by omega
      simp [IsoTp.st_min_delay_micros, h3, h1]
    · have h3 : ¬st ≤ 0x7F := by omega
      simp [IsoTp.st_min_delay_micros, h3, h1]

/-- C5 witness: the amended theorem applied at the concrete bytes 0x10
(millisecond branch), 0xF3 (wrapping microsecond branch) and 0x80 (no-delay
branch). -/
theorem c5_st_min_decode_witness :
    IsoTp.st_min_delay_micros 0x10 = 16000 ∧ IsoTp.st_min_delay_micros 0xF3 = 44 ∧
      IsoTp.st_min_delay_micros 0x80 = 0 :=
  ⟨by rw [c5_st_min_decode_amended.1 0x10 (by decide)],
   by rw [c5_st_min_decode_amended.2.1 0xF3 (by decide) (by decide)],
   c5_st_min_decode_amended.2.2 0x80 (Or.inl (by decide))⟩

/-! ## C7: OBD-II DTC decoding -/

/-- C7 (code bug): for the response word `[0x0A, 0x00]` the decoding loop of
Obd::read_dtc produces the 6-character string "P01000" — the nibble 0x0A is
rendered by the Display (decimal) formatter as the two characters "10"
instead of the hex digit A — contradicting the documented 5-character
`<letter><4 hex digits>` DTC format (which would give "P0A00").  A word
with all nibbles below 10, such as `[0x01, 0x33]`, decodes as documented. -/
theorem c7_dtc_decode_bug :
    Obd.read_dtc_decode [0x0A, 0x00] = ["P01000"] ∧
      (Obd.dtc_string 0x0A 0x00).length = 6 ∧
      Obd.read_dtc_decode [0x01, 0x33] = ["P0133"] := by
  refine ⟨by decide, by decide, by decide⟩

/-! ## C9: ISO-TP empty-payload send -/

/-- C9: on every open ISO-TP instance, send of the empty payload returns
InvalidParameter, hands no frame to the physical layer, and leaves the
instance state unchanged. -/
theorem c9_isotp_send_empty (t : IsoTp.IsoTpState) (stream : List Frame)
    (hopen : t.is_open = true) :
    IsoTp.send t [] stream = (t, [], .error .InvalidParameter) := by
  simp [IsoTp.send, hopen]

/-- C9 witness: the theorem applied to a concrete open instance. -/
theorem c9_isotp_send_empty_witness :
    IsoTp.send { config := sample_isotp_config, is_open := true } [] []
      = ({ config := sample_isotp_config, is_open := true }, [], .error .InvalidParameter) :=
  c9_isotp_send_empty { config := sample_isotp_config, is_open := true } [] rfl

/-! ## C10: UDS close frame effect -/

/-- C10: Uds::close always returns Ok and only clears the engine's own
is_open flag: the session status, the configuration, the recursion guard and
the underlying transport's open state are all left untouched (in particular
the transport is never closed). -/
theorem c10_uds_close_effect (s : Uds.UdsState) :
    (Uds.closeEngine s).2 = .ok () ∧
      (Uds.closeEngine s).1.is_open = false ∧
      (Uds.closeEngine s).1.status = s.status ∧
      (Uds.closeEngine s).1.config = s.config ∧
      (Uds.closeEngine s).1.transport_open = s.transport_open ∧
      (Uds.closeEngine s).1.handling_session_timing = s.handling_session_timing :=
  ⟨rfl, rfl, rfl, rfl, rfl, rfl⟩

end LibAutomotive

namespace LibAutomotive

/-! ## C2 and C4: UDS send_request response handling -/

theorem pending_is_pending (sid : Nat) :
    Uds.is_response_pending sid (pending_response sid) := by
  refine ⟨by simp [pending_response], ?_, ?_, ?_⟩ <;> simp [pending_response]

theorem send_request_loop_pending_step (req : Uds.UdsRequest) (rc : Nat)
    (rest : List (List Nat)) (h : rc + 1 < 5) :
    Uds.send_request_loop req (pending_response req.service_id :: rest) rc
      = Uds.send_request_loop req rest (rc + 1) := by
  have hp := pending_is_pending req.service_id
  simp only [Uds.send_request_loop]
  rw [if_neg (by simp [pending_response]), if_pos hp, if_neg (by omega)]

theorem send_request_loop_pending_break (req : Uds.UdsRequest) (rest : List (List Nat)) :
    Uds.send_request_loop req (pending_response req.service_id :: rest) 4
      = (.ok { service_id := 0x7E, data := [0x00] }, rest) := by
  have hp := pending_is_pending req.service_id
  simp only [Uds.send_request_loop]
  rw [if_neg (by simp [pending_response]), if_pos hp, if_pos (by omega)]

theorem send_request_loop_regular (req : Uds.UdsRequest) (rc : Nat)
    (r : List Nat) (rest : List (List Nat)) (hr : r ≠ [])
    (hnp : ¬Uds.is_response_pending req.service_id r) :
    Uds.send_request_loop req (r :: rest) rc
      = (.ok { service_id := r.headD 0, data := r.tail }, rest) := by
  simp only [Uds.send_request_loop]
  rw [if_neg (by simpa using hr), if_neg hnp]

theorem send_request_loop_pendings (req : Uds.UdsRequest) :
    ∀ (k rc : Nat), rc + k ≤ 4 → ∀ rest : List (List Nat),
      Uds.send_request_loop req
        (List.replicate k (pending_response req.service_id) ++ rest) rc
        = Uds.send_request_loop req rest (rc + k) := by
  intro k
  induction k with
  | zero => intro rc h rest; simp
  | succ n ih =>
    intro rc h rest
    rw [List.replicate_succ, List.cons_append,
      send_request_loop_pending_step req rc _ (by omega), ih (rc + 1) (by omega)]
    congr 1
    omega

/-- C2 counterexample: on an open engine, a request answered by five
consecutive ResponsePending negative responses makes send_request return a
fabricated positive response Ok(service_id 0x7E, data [0x00]) — a value
different from the UdsError("response timeout") failure the claim states. -/
theorem c2_response_pending_counterexample :
    Uds.send_request uds_open_state { service_id := 0x22, parameters := [] }
        (List.replicate 5 [0x7F, 0x22, 0x78])
      = (.ok { service_id := 0x7E, data := [0x00] }, []) ∧
    (Except.ok { service_id := 0x7E, data := [0x00] }
        : Except AutomotiveError Uds.UdsResponse)
      ≠ .error (.UdsError "response timeout") := by
  refine ⟨rfl, by simp⟩

/-- C2 (amended): when a response is the negative response
`[0x7F, SID, 0x78]` (ResponsePending), send_request does not report an error
but reads on, for up to five pending responses in total; any earlier
non-pending, non-empty response is returned normally, and after the fifth
pending response the call stops reading and returns the fabricated positive
response Ok(service_id 0x7E, data [0x00]) to the caller — it does not
surface UdsError("response timeout"). -/
theorem c2_response_pending_amended (s : Uds.UdsState) (req : Uds.UdsRequest)
    (hopen : s.is_open = true) :
    (∀ k, k ≤ 4 → ∀ (r : List Nat) (rest : List (List Nat)), r ≠ [] →
      ¬Uds.is_response_pending req.service_id r →
      Uds.send_request s req
          (List.replicate k (pending_response req.service_id) ++ r :: rest)
        = (.ok { service_id := r.headD 0, data := r.tail }, rest)) ∧
    (∀ rest : List (List Nat),
      Uds.send_request s req
          (List.replicate 5 (pending_response req.service_id) ++ rest)
        = (.ok { service_id := 0x7E, data := [0x00] }, rest)) := by
  constructor
  · intro k hk r rest hr hnp
    unfold Uds.send_request
    rw [if_neg (by simp [hopen]),
      send_request_loop_pendings req k 0 (by omega) (r :: rest)]
    simpa using send_request_loop_regular req k r rest hr hnp
  · intro rest
    unfold Uds.send_request
    have h5 : List.replicate 5 (pending_response req.service_id) ++ rest
        = List.replicate 4 (pending_response req.service_id)
          ++ (pending_response req.service_id :: rest) := by
      simp [List.replicate_succ, List.replicate]
    rw [if_neg (by simp [hopen]), h5,
      send_request_loop_pendings req 4 0 (by omega),
      send_request_loop_pending_break]

/-- C2 witness: the amended theorem applied on the concrete open engine,
with two pending responses followed by a positive response, and with five
pending responses. -/
theorem c2_response_pending_witness :
    Uds.send_request uds_open_state { service_id := 0x3E, parameters := [0x00] }
        (List.replicate 2 (pending_response 0x3E) ++ [0x7E, 0x00] :: [])
      = (.ok { service_id := 0x7E, data := [0x00] }, []) ∧
    Uds.send_request uds_open_state { service_id := 0x3E, parameters := [0x00] }
        (List.replicate 5 (pending_response 0x3E) ++ [])
      = (.ok { service_id := 0x7E, data := [0x00] }, []) :=
  ⟨(c2_response_pending_amended uds_open_state
        { service_id := 0x3E, parameters := [0x00] } rfl).1 2 (by omega)
      [0x7E, 0x00] [] (by decide) (by decide),
   (c2_response_pending_amended uds_open_state
        { service_id := 0x3E, parameters := [0x00] } rfl).2 []⟩

/-- C4 counterexample: on an open engine, the negative response
`[0x7F, 0x22, 0x10]` (SID 0x22, NRC 0x10 = GeneralReject, not 0x78) is
returned by send_request as Ok(UdsResponse{service_id 0x7F, data
[0x22, 0x10]}) even though its first byte 0x7F differs from the expected
echo 0x22 + 0x40 = 0x62 — no UdsError is surfaced. -/
theorem c4_response_echo_counterexample :
    Uds.send_request uds_open_state { service_id := 0x22, parameters := [] }
        [[0x7F, 0x22, 0x10]]
      = (.ok { service_id := 0x7F, data := [0x22, 0x10] }, []) ∧
    (0x7F : Nat) ≠ 0x22 + 0x40 := by
  refine ⟨rfl, by decide⟩

/-- C4 (amended): send_request performs no positive-response-echo check at
all: every non-empty response that is not the ResponsePending negative
response `[0x7F, SID, 0x78]` — in particular every negative response with
NRC different from 0x78 — is returned as Ok(UdsResponse{service_id = first
byte, data = remaining bytes}), whatever its first byte. -/
theorem c4_response_echo_amended (s : Uds.UdsState) (req : Uds.UdsRequest)
    (r : List Nat) (rest : List (List Nat)) (hopen : s.is_open = true)
    (hr : r ≠ []) (hnp : ¬Uds.is_response_pending req.service_id r) :
    Uds.send_request s req (r :: rest)
      = (.ok { service_id := r.headD 0, data := r.tail }, rest) := by
  unfold Uds.send_request
  rw [if_neg (by simp [hopen])]
  exact send_request_loop_regular req 0 r rest hr hnp

/-- C4 witness: the amended theorem applied to the concrete negative
response `[0x7F, 0x22, 0x33]` (NRC 0x33 = SecurityAccessDenied). -/
theorem c4_response_echo_witness :
    Uds.send_request uds_open_state { service_id := 0x22, parameters := [] }
        [[0x7F, 0x22, 0x33]]
      = (.ok { service_id := 0x7F, data := [0x22, 0x33] }, []) :=
  c4_response_echo_amended uds_open_state { service_id := 0x22, parameters := [] }
    [0x7F, 0x22, 0x33] [] rfl (by decide) (by decide)

end LibAutomotive

namespace LibAutomotive

/-! ## C8: UDS session invariant -/

theorem change_session_security_level (s : Uds.UdsState) (t : Uds.UdsSessionType)
    (rs : List (List Nat)) :
    (Uds.change_session s t rs).1.status.security_level
      = s.status.security_level := by
  unfold Uds.change_session
  rcases Uds.send_request s { service_id := 0x10, parameters := [t.toByte] } rs
    with ⟨res, rest⟩
  cases res with
  | error e => rfl
  | ok resp => by_cases hd : resp.data.isEmpty <;> simp [hd]

theorem ecu_reset_state_eq (s : Uds.UdsState) (rt : Nat) (rs : List (List Nat)) :
    (Uds.ecu_reset s rt rs).1 = s := by
  unfold Uds.ecu_reset
  rcases Uds.send_request s { service_id := 0x11, parameters := [rt] } rs
    with ⟨res, rest⟩
  cases res with
  | error e => rfl
  | ok resp => by_cases hd : resp.data.isEmpty <;> simp [hd]

theorem tester_present_security_level (s : Uds.UdsState) (b : Bool)
    (h : s.status.security_level = 0) :
    (Uds.tester_present s b).1.status.security_level = 0 := by
  unfold Uds.tester_present
  split <;> simp [Uds.SessionStatus.default, h]

theorem step_preserves_level_zero (s : Uds.UdsState) (op : Uds.UdsOp)
    (hop : op.isSecurityAccess = false)
    (h : s.status.security_level = 0) :
    (Uds.step s op).status.security_level = 0 := by
  cases op with
  | openOp =>
    simp only [Uds.step]
    unfold Uds.openEngine
    split <;> simp [h]
  | closeOp => simpa [Uds.step, Uds.closeEngine] using h
  | changeSession t rs => rw [Uds.step, change_session_security_level]; exact h
  | ecuReset rt rs => rw [Uds.step, ecu_reset_state_eq]; exact h
  | securityAccess level key_fn rs => simp [Uds.UdsOp.isSecurityAccess] at hop
  | testerPresent b => rw [Uds.step]; exact tester_present_security_level s b h
  | sendRequest req rs => simpa [Uds.step] using h

theorem apply_ops_level_zero :
    ∀ (ops : List Uds.UdsOp) (s : Uds.UdsState),
      (∀ op ∈ ops, op.isSecurityAccess = false) →
      s.status.security_level = 0 →
      (Uds.apply_ops s ops).status.security_level = 0 := by
  intro ops
  induction ops with
  | nil => intro s _ hs; simpa [Uds.apply_ops] using hs
  | cons op rest ih =>
    intro s h hs
    have hstep : Uds.apply_ops s (op :: rest) = Uds.apply_ops (Uds.step s op) rest := by
      simp [Uds.apply_ops]
    rw [hstep]
    exact ih _ (fun o ho => h o (by simp [ho]))
      (step_preserves_level_zero s op (h op (by simp)) hs)

/-- C8 counterexample: from the initial engine state, the operation sequence
[open, security_access(level 1, two successful transport responses)] reaches
a state whose session_type is still Default while security_level is 1 — the
claimed invariant fails, because security_access sets the level without any
session check and change_session back to Default would likewise not clear
it. -/
theorem c8_session_invariant_counterexample :
    (Uds.apply_ops (Uds.with_transport Uds.UdsConfig.default)
        [.openOp, .securityAccess 1 (fun _ => []) [[0x67, 0x01, 0xAA], [0x67]]]).status.session_type
      = Uds.UdsSessionType.Default ∧
    (Uds.apply_ops (Uds.with_transport Uds.UdsConfig.default)
        [.openOp, .securityAccess 1 (fun _ => []) [[0x67, 0x01, 0xAA], [0x67]]]).status.security_level
      = 1 :=
  ⟨rfl, rfl⟩

/-- C8 (amended): in every state reachable from the initial state by a
sequence of public operations that contains no security_access call, the
security level stays 0; in particular session_type = Default implies
security_level = 0 along such sequences.  (A successful security_access sets
security_level to its argument in whatever session the engine is in —
including Default — which is the only way the claimed invariant breaks.) -/
theorem c8_session_invariant_amended (config : Uds.UdsConfig)
    (ops : List Uds.UdsOp)
    (hops : ∀ op ∈ ops, op.isSecurityAccess = false) :
    (Uds.apply_ops (Uds.with_transport config) ops).status.session_type
        = Uds.UdsSessionType.Default →
    (Uds.apply_ops (Uds.with_transport config) ops).status.security_level = 0 :=
  fun _ => apply_ops_level_zero ops (Uds.with_transport config) hops rfl

/-- C8 witness: the amended theorem applied to the concrete sequence
[open, change_session(Extended), tester_present, close]. -/
theorem c8_session_invariant_witness :
    (Uds.apply_ops (Uds.with_transport Uds.UdsConfig.default)
        [.openOp, .changeSession .Extended [[0x50, 0x03]], .testerPresent true,
          .closeOp]).status.security_level = 0 :=
  c8_session_invariant_amended Uds.UdsConfig.default
    [.openOp, .changeSession .Extended [[0x50, 0x03]], .testerPresent true, .closeOp]
    (by decide) rfl

end LibAutomotive

namespace LibAutomotive

/-! ## C6: J1939 identifier codec -/

/-- C6 counterexample: the address (priority 0, pgn 0x1000, source 0x10,
destination 0x00) satisfies every width precondition of the claim — PF =
(pgn >> 8) & 0xFF = 0x10 < 240, and the destination equals the low PGN byte
0x00 — and the node has claimed address 0x10, yet decoding the encoded
frame yields destination 0xFF, because parse_frame treats a PGN as
destination-specific only when its whole PF byte is zero
(`pgn & 0xFF00 == 0`), not when PF < 240. -/
theorem c6_j1939_codec_counterexample :
    ((0x1000 >>> 8) &&& 0xFF) = 0x10 ∧ (0x10 : Nat) < 240 ∧
    J1939.parse_frame
        (J1939.build_frame (some 0x10)
          { priority := 0, pgn := 0x1000, source := 0x10, destination := 0x00 } [])
      = .ok { address := { priority := 0, pgn := 0x1000, source := 0x10,
                           destination := 0xFF },
              data := [], timestamp := 0 } ∧
    (0xFF : Nat) ≠ 0x00 := by
  refine ⟨by decide, by decide, rfl, by decide⟩

theorem and_7_eq_mod (x : Nat) : x &&& 7 = x % 8 :=
  Nat.and_pow_two_sub_one_eq_mod x 3

theorem and_255_eq_mod (x : Nat) : x &&& 255 = x % 256 :=
  Nat.and_pow_two_sub_one_eq_mod x 8

theorem and_262143_eq_mod (x : Nat) : x &&& 262143 = x % 262144 :=
  Nat.and_pow_two_sub_one_eq_mod x 18

/-- C6 (amended): decode(encode(address)) = address holds for every address
whose fields fit their widths, provided (i) the node's claimed address (the
source byte the encoder actually writes) equals the address's source field,
and (ii) the destination matches what the decoder reconstructs: the low PGN
byte when the PF byte of the PGN is zero (`pgn & 0xFF00 = 0`, the condition
the code tests instead of PF < 240), and 0xFF otherwise. -/
theorem c6_j1939_codec_amended (a : J1939.Address) (d : List Nat)
    (hp : a.priority < 8) (hg : a.pgn < 2 ^ 18) (hs : a.source < 256)
    (hdest : if a.pgn &&& 0xFF00 = 0 then a.destination = a.pgn &&& 0xFF
             else a.destination = 0xFF) :
    J1939.parse_frame (J1939.build_frame (some a.source) a d)
      = .ok { address := a, data := d, timestamp := 0 } := by
  obtain ⟨p, pgn, src, dst⟩ := a
  simp only at hp hg hs hdest
  have h8 : (2 : Nat) ^ 8 = 256 := by norm_num
  have h18 : (2 : Nat) ^ 18 = 262144 := by norm_num
  have h26 : (2 : Nat) ^ 26 = 67108864 := by norm_num
  have h32 : (2 : Nat) ^ 32 = 4294967296 := by norm_num
  have hid : (((p <<< 26) % 2 ^ 32) ||| ((pgn <<< 8) % 2 ^ 32)) ||| src
      = 2 ^ 8 * (2 ^ 18 * p + pgn) + src := by
    simp only [Nat.shiftLeft_eq]
    have h1 : p * 2 ^ 26 < 2 ^ 32 := by rw [h26, h32]; omega
    have h2 : pgn * 2 ^ 8 < 2 ^ 32 := by rw [h8, h32]; omega
    have hb : pgn * 2 ^ 8 < 2 ^ 26 := by rw [h8, h26]; omega
    rw [Nat.mod_eq_of_lt h1, Nat.mod_eq_of_lt h2]
    have h3 : p * 2 ^ 26 ||| pgn * 2 ^ 8 = 2 ^ 26 * p + pgn * 2 ^ 8 := by
      rw [Nat.mul_comm p]
      exact (Nat.mul_add_lt_is_or hb p).symm
    have h5 : 2 ^ 26 * p + pgn * 2 ^ 8 = 2 ^ 8 * (2 ^ 18 * p + pgn) := by ring
    rw [h3, h5]
    exact (Nat.mul_add_lt_is_or hs (2 ^ 18 * p + pgn)).symm
  have hpr : ((2 ^ 8 * (2 ^ 18 * p + pgn) + src) >>> 26) &&& 7 = p := by
    rw [Nat.shiftRight_eq_div_pow, and_7_eq_mod, h8, h18, h26]
    omega
  have hpg : ((2 ^ 8 * (2 ^ 18 * p + pgn) + src) >>> 8) &&& 262143 = pgn := by
    rw [Nat.shiftRight_eq_div_pow, and_262143_eq_mod, h8, h18]
    omega
  have hsrc : (2 ^ 8 * (2 ^ 18 * p + pgn) + src) &&& 255 = src := by
    rw [and_255_eq_mod, h8, h18]
    omega
  simp only [J1939.build_frame, J1939.parse_frame, Option.getD_some, Bool.not_true,
    Bool.false_eq_true, if_false, hid, hpr, hpg, hsrc]
  simp only [Except.ok.injEq, J1939.J1939Message.mk.injEq, J1939.Address.mk.injEq,
    true_and, and_true]
  split_ifs at hdest ⊢ with hc
  · exact hdest.symm
  · exact hdest.symm

/-- C6 witness: the amended theorem applied to the broadcast address claim
frame address (priority 6, PGN 0xEE00, source 0x25, destination 0xFF). -/
theorem c6_j1939_codec_witness :
    J1939.parse_frame
        (J1939.build_frame (some 0x25)
          { priority := 6, pgn := 0xEE00, source := 0x25, destination := 0xFF }
          [1, 2, 3])
      = .ok { address := { priority := 6, pgn := 0xEE00, source := 0x25,
                           destination := 0xFF },
              data := [1, 2, 3], timestamp := 0 } :=
  c6_j1939_codec_amended
    { priority := 6, pgn := 0xEE00, source := 0x25, destination := 0xFF }
    [1, 2, 3] (by decide) (by decide) (by decide) (by decide)

end LibAutomotive

namespace LibAutomotive

/-! ## C3: ISO-TP flow-control status handling in send -/

/-- C3 counterexample: an 8-byte transfer whose only received frame is a
Flow Control with flow status OVFL (first byte 0x32) is not aborted with
IsoTpError: the sender accepts the frame as clear-to-send, takes BS = 0 and
STmin = 0 from it, sends its Consecutive Frame and returns Ok. -/
theorem c3_flow_control_counterexample :
    IsoTp.send_multi_frame sample_isotp_config
        [0xAA, 0xAA, 0xAA, 0xAA, 0xAA, 0xAA, 0xAA, 0xAA]
        [{ id := 0x7E8, data := [0x32, 0x00, 0x00], timestamp := 0,
           is_extended := false, is_fd := false }]
      = ([{ id := 0x7E0, data := [0x10, 0x08, 0xAA, 0xAA, 0xAA, 0xAA, 0xAA, 0xAA],
            timestamp := 0, is_extended := false, is_fd := false },
          { id := 0x7E0, data := [0x21, 0xAA, 0xAA], timestamp := 0,
            is_extended := false, is_fd := false }], .ok ()) := by
  simp [IsoTp.send_multi_frame, IsoTp.send_consecutive_frames, IsoTp.wait_for_pci,
    IsoTp.receive_frame_with_addressing, IsoTp.send_frame_with_addressing,
    IsoTp.apply_padding, sample_isotp_config, IsoTp.FC_PCI, IsoTp.CF_PCI,
    IsoTp.FF_PCI, IsoTp.ff_frame, IsoTp.cf_frame, Nat.min_def,
    (by decide : (50 : Nat) &&& 240 = 48)]

end LibAutomotive

namespace LibAutomotive

/-- C3 (amended): after the First Frame, the sender accepts the first frame
whose PCI high nibble is 0x3 as flow control irrespective of its flow-status
nibble — WAIT (0x31) and OVFL (0x32) included — and takes BS and STmin from
its second and third bytes and proceeds to send Consecutive Frames exactly
as for CTS (0x30): the whole run is independent of the status nibble. -/
theorem c3_flow_control_amended (cfg : IsoTp.IsoTpConfig) (data : List Nat)
    (s bs st fid ts : Nat) (ext fd : Bool) (rest : List Frame)
    (hmode : cfg.address_mode = .Normal) (hs : s < 16) :
    IsoTp.send_multi_frame cfg data
        ({ id := fid, data := [0x30 ||| s, bs, st], timestamp := ts,
           is_extended := ext, is_fd := fd } :: rest)
      = IsoTp.send_multi_frame cfg data
        ({ id := fid, data := [0x30, bs, st], timestamp := ts,
           is_extended := ext, is_fd := fd } :: rest) := by
  have h1 : (0x30 ||| s) &&& 0xF0 = 0x30 := lor_shl_and_shl 3 s 15 4 hs
  simp [IsoTp.send_multi_frame, IsoTp.wait_for_pci, hmode,
    IsoTp.receive_frame_with_addressing, IsoTp.FC_PCI, h1,
    (by decide : (48 : Nat) &&& 240 = 48)]

/-- C3 witness: the amended theorem applied to the OVFL status nibble
(0x30 ||| 2 = 0x32) on a concrete 8-byte transfer. -/
theorem c3_flow_control_witness :
    IsoTp.send_multi_frame sample_isotp_config
        [0xAA, 0xAA, 0xAA, 0xAA, 0xAA, 0xAA, 0xAA, 0xAA]
        [{ id := 0x7E8, data := [0x32, 0x00, 0x00], timestamp := 0,
           is_extended := false, is_fd := false }]
      = IsoTp.send_multi_frame sample_isotp_config
        [0xAA, 0xAA, 0xAA, 0xAA, 0xAA, 0xAA, 0xAA, 0xAA]
        [{ id := 0x7E8, data := [0x30, 0x00, 0x00], timestamp := 0,
           is_extended := false, is_fd := false }] :=
  c3_flow_control_amended sample_isotp_config
    [0xAA, 0xAA, 0xAA, 0xAA, 0xAA, 0xAA, 0xAA, 0xAA]
    2 0x00 0x00 0x7E8 0 false false [] rfl (by decide)

end LibAutomotive

namespace LibAutomotive

/-! ## C1: ISO-TP round trip — addressing, padding and scan lemmas -/

theorem mixed_ae_check (x ae : Nat) (h : ae < 256) :
    ((x &&& 0xFFFFFF00) ||| ae) &&& 0xFF = ae := by
  rw [Nat.and_distrib_right, Nat.and_assoc,
    (by decide : (0xFFFFFF00 : Nat) &&& 0xFF = 0), Nat.and_zero, Nat.zero_or,
    and_255_eq_mod, Nat.mod_eq_of_lt h]

/-- A frame put on the wire by one endpoint is accepted by the addressing
check of a peer with the same address mode and extension, and its logical
data survives the trip. -/
theorem recv_of_wire (c1 c2 : IsoTp.IsoTpConfig) (f : Frame)
    (hmode : c1.address_mode = c2.address_mode)
    (hae : c1.address_extension = c2.address_extension)
    (hlt : c2.address_extension < 256) :
    ∃ g, IsoTp.receive_frame_with_addressing c2 (IsoTp.send_frame_with_addressing c1 f)
        = .ok g ∧ g.data = f.data := by
  cases hm : c2.address_mode with
  | Normal =>
    refine ⟨f, ?_, rfl⟩
    simp [IsoTp.send_frame_with_addressing, IsoTp.receive_frame_with_addressing,
      hmode, hm]
  | Extended =>
    refine ⟨{ f with data := f.data }, ?_, rfl⟩
    simp [IsoTp.send_frame_with_addressing, IsoTp.receive_frame_with_addressing,
      hmode, hm, hae]
  | Mixed =>
    refine ⟨{ f with id := (f.id &&& 0xFFFFFF00) ||| c1.address_extension }, ?_, rfl⟩
    simp [IsoTp.send_frame_with_addressing, IsoTp.receive_frame_with_addressing,
      hmode, hm, hae, mixed_ae_check f.id c2.address_extension hlt]

theorem wait_for_pci_wire (c1 c2 : IsoTp.IsoTpConfig) (pci : Nat) (f : Frame)
    (rest : List Frame)
    (hmode : c1.address_mode = c2.address_mode)
    (hae : c1.address_extension = c2.address_extension)
    (hlt : c2.address_extension < 256)
    (hne : f.data ≠ []) (hpci : f.data.headD 0 &&& 0xF0 = pci) :
    ∃ g, IsoTp.wait_for_pci c2 pci (IsoTp.send_frame_with_addressing c1 f :: rest)
        = some (g, rest) ∧ g.data = f.data := by
  obtain ⟨g, he, hd⟩ := recv_of_wire c1 c2 f hmode hae hlt
  refine ⟨g, ?_, hd⟩
  simp only [IsoTp.wait_for_pci, he]
  rw [if_pos ⟨by simp [hd, hne], by rw [hd]; exact hpci⟩]

theorem apply_padding_head (cfg : IsoTp.IsoTpConfig) (x : Nat) (l : List Nat) :
    (IsoTp.apply_padding cfg (x :: l)).headD 0 = x := by
  unfold IsoTp.apply_padding
  split <;> simp

theorem apply_padding_ne_nil (cfg : IsoTp.IsoTpConfig) (x : Nat) (l : List Nat) :
    IsoTp.apply_padding cfg (x :: l) ≠ [] := by
  unfold IsoTp.apply_padding
  split <;> simp

theorem apply_padding_getD_one (cfg : IsoTp.IsoTpConfig) (a b c : Nat) :
    (IsoTp.apply_padding cfg [a, b, c]).getD 1 0 = b := by
  unfold IsoTp.apply_padding
  split <;> simp [List.replicate, List.getD]

theorem take_append_left (l₁ l₂ : List α) (k : Nat) (h : k ≤ l₁.length) :
    (l₁ ++ l₂).take k = l₁.take k := by
  calc (l₁ ++ l₂).take k = (l₁ ++ l₂).take (min k l₁.length) := by
        rw [Nat.min_eq_left h]
    _ = ((l₁ ++ l₂).take l₁.length).take k := by rw [List.take_take]
    _ = l₁.take k := by rw [List.take_left]

theorem apply_padding_drop_one_take (cfg : IsoTp.IsoTpConfig) (x : Nat)
    (l : List Nat) (k : Nat) (h : k ≤ l.length) :
    ((IsoTp.apply_padding cfg (x :: l)).drop 1).take k = l.take k := by
  unfold IsoTp.apply_padding
  split
  · rw [List.cons_append, List.drop_one, List.tail_cons, take_append_left _ _ _ h]
  · rfl

theorem apply_padding_drop_two_take (cfg : IsoTp.IsoTpConfig) (x y : Nat)
    (l : List Nat) (k : Nat) (h : k ≤ l.length) :
    ((IsoTp.apply_padding cfg (x :: y :: l)).drop 2).take k = l.take k := by
  unfold IsoTp.apply_padding
  split
  · rw [List.cons_append, List.cons_append,
      (by rfl : (x :: y :: (l ++ _)).drop 2 = l ++ _), take_append_left _ _ _ h]
  · rfl

theorem apply_padding_length (cfg : IsoTp.IsoTpConfig) (d : List Nat) :
    (IsoTp.apply_padding cfg d).length
      = if cfg.use_padding then max 8 d.length else d.length := by
  unfold IsoTp.apply_padding
  split
  · simp
    omega
  · simp

end LibAutomotive

namespace LibAutomotive

/-- Scanning for Flow Control on the sender side finds the receiver's FC
wire frame first and recovers its logical bytes. -/
theorem wait_fc_wire (cfgS cfgR : IsoTp.IsoTpConfig) (rest : List Frame)
    (hmode : cfgS.address_mode = cfgR.address_mode)
    (hae : cfgS.address_extension = cfgR.address_extension)
    (haeR : cfgR.address_extension < 256) :
    ∃ g, IsoTp.wait_for_pci cfgS IsoTp.FC_PCI (IsoTp.fc_wire cfgR :: rest)
        = some (g, rest)
      ∧ g.data = IsoTp.apply_padding cfgR [IsoTp.FC_PCI, cfgR.block_size, cfgR.st_min] := by
  unfold IsoTp.fc_wire
  exact wait_for_pci_wire cfgR cfgS _ _ rest hmode.symm hae.symm
    (by rw [hae]; exact haeR) (apply_padding_ne_nil _ _ _)
    (by rw [apply_padding_head]; decide)

/-- The joint induction behind the ISO-TP round trip: from any aligned
mid-transfer state (sender about to emit the CF at offset `index`, receiver
holding the first `index` bytes, equal sequence nibbles and equal
frames-per-block counters), the sender — fed exactly the Flow Control
frames the receiver will emit — completes with Ok, and the receiver, fed
exactly the sender's Consecutive Frames, reassembles all of `b` and emits
exactly those Flow Control frames. -/
theorem cf_round_trip (cfgS cfgR : IsoTp.IsoTpConfig) (b : List Nat)
    (hmode : cfgS.address_mode = cfgR.address_mode)
    (hae : cfgS.address_extension = cfgR.address_extension)
    (haeR : cfgR.address_extension < 256) :
    ∀ (n index seq fs : Nat), b.length - index = n → index ≤ b.length → seq < 16 →
      ∃ F : List Frame,
        IsoTp.send_consecutive_frames cfgS b cfgR.block_size
            (List.replicate (IsoTp.fc_needed b.length index fs cfgR.block_size)
              (IsoTp.fc_wire cfgR)) index seq fs
          = (F, .ok ())
        ∧ IsoTp.receive_consecutive_frames cfgR b.length (b.take index) seq fs F
          = (List.replicate (IsoTp.fc_needed b.length index fs cfgR.block_size)
              (IsoTp.fc_wire cfgR), .ok b) := by
  intro n
  induction n using Nat.strong_induction_on with
  | _ n ih =>
    intro index seq fs hn hle hseq
    by_cases hlt : index < b.length
    case neg =>
      have hidx : index = b.length := by omega
      have hfc : IsoTp.fc_needed b.length index fs cfgR.block_size = 0 := by
        unfold IsoTp.fc_needed
        rw [if_neg hlt]
      refine ⟨[], ?_, ?_⟩
      · unfold IsoTp.send_consecutive_frames
        rw [if_neg hlt]
      · unfold IsoTp.receive_consecutive_frames
        rw [if_neg (by simp [List.length_take]; omega)]
        rw [hfc, hidx, List.take_length]
        simp
    case pos =>
      have hch1 : 1 ≤ min (b.length - index) 7 := by omega
      have hch2 : index + min (b.length - index) 7 ≤ b.length := by omega
      have hlen_take : (b.take index).length = index := by
        simp [List.length_take]
        omega
      obtain ⟨g, hgeq, hgdata⟩ := recv_of_wire cfgS cfgR
        { id := cfgS.tx_id
          data := IsoTp.apply_padding cfgS
            ((IsoTp.CF_PCI ||| seq) :: (b.drop index).take (min (b.length - index) 7))
          timestamp := 0, is_extended := false, is_fd := false }
        hmode hae haeR
      have hgeq2 : IsoTp.receive_frame_with_addressing cfgR
          (IsoTp.cf_frame cfgS b index seq) = .ok g := hgeq
      have hghead : g.data.headD 0 = IsoTp.CF_PCI ||| seq := by
        rw [hgdata]; exact apply_padding_head _ _ _
      have hgne : g.data ≠ [] := by
        rw [hgdata]; exact apply_padding_ne_nil _ _ _
      have hCF : g.data.headD 0 &&& 0xF0 = IsoTp.CF_PCI := by
        rw [hghead]; exact or32_and_hi hseq
      have hseqD : g.data.headD 0 &&& 0x0F = seq := by
        rw [hghead]; exact or32_and_lo hseq
      have hchunk_data : (g.data.drop 1).take (min (b.length - index) 7)
          = (b.drop index).take (min (b.length - index) 7) := by
        rw [hgdata]
        rw [apply_padding_drop_one_take cfgS _ _ _
          (by simp [List.length_take, List.length_drop])]
        rw [List.take_take, Nat.min_self]
      by_cases hblk : cfgR.block_size > 0 ∧ fs + 1 = cfgR.block_size
      case pos =>
        have hfc_eq : IsoTp.fc_needed b.length index fs cfgR.block_size
            = 1 + IsoTp.fc_needed b.length (index + min (b.length - index) 7) 0
                cfgR.block_size := by
          conv_lhs => rw [IsoTp.fc_needed]
          rw [if_pos hlt, if_pos hblk]
        obtain ⟨F2, hsend2, hrecv2⟩ := ih (b.length - (index + min (b.length - index) 7))
          (by omega) (index + min (b.length - index) 7) ((seq + 1) &&& 0x0F) 0 rfl hch2
          (and_15_lt _)
        obtain ⟨gf, hwf, hgfd⟩ := wait_fc_wire cfgS cfgR
          (List.replicate (IsoTp.fc_needed b.length (index + min (b.length - index) 7) 0
            cfgR.block_size) (IsoTp.fc_wire cfgR)) hmode hae haeR
        refine ⟨IsoTp.cf_frame cfgS b index seq :: F2, ?_, ?_⟩
        · unfold IsoTp.send_consecutive_frames
          rw [if_pos hlt, if_pos hblk, hfc_eq, Nat.add_comm 1, List.replicate_succ]
          simp only [hwf]
          rw [hsend2]
        · unfold IsoTp.receive_consecutive_frames
          rw [if_pos (by rw [hlen_take]; exact hlt)]
          simp only [hgeq2]
          rw [if_pos ⟨by simp [hgne], hCF⟩]
          rw [if_neg (by rw [hseqD]; simp)]
          rw [hlen_take, hchunk_data, ← List.take_add]
          rw [if_pos hblk]
          rw [hrecv2]
          rw [hfc_eq, Nat.add_comm 1, List.replicate_succ]
      case neg =>
        have hfc_eq : IsoTp.fc_needed b.length index fs cfgR.block_size
            = IsoTp.fc_needed b.length (index + min (b.length - index) 7) (fs + 1)
                cfgR.block_size := by
          conv_lhs => rw [IsoTp.fc_needed]
          rw [if_pos hlt, if_neg hblk]
        obtain ⟨F2, hsend2, hrecv2⟩ := ih (b.length - (index + min (b.length - index) 7))
          (by omega) (index + min (b.length - index) 7) ((seq + 1) &&& 0x0F) (fs + 1) rfl
          hch2 (and_15_lt _)
        refine ⟨IsoTp.cf_frame cfgS b index seq :: F2, ?_, ?_⟩
        · unfold IsoTp.send_consecutive_frames
          rw [if_pos hlt, if_neg hblk, hfc_eq]
          rw [hsend2]
        · unfold IsoTp.receive_consecutive_frames
          rw [if_pos (by rw [hlen_take]; exact hlt)]
          simp only [hgeq2]
          rw [if_pos ⟨by simp [hgne], hCF⟩]
          rw [if_neg (by rw [hseqD]; simp)]
          rw [hlen_take, hchunk_data, ← List.take_add]
          rw [if_neg hblk]
          rw [hrecv2, hfc_eq]

end LibAutomotive

namespace LibAutomotive

theorem wait_any_wire (c1 c2 : IsoTp.IsoTpConfig) (f : Frame) (rest : List Frame)
    (hmode : c1.address_mode = c2.address_mode)
    (hae : c1.address_extension = c2.address_extension)
    (hlt : c2.address_extension < 256) :
    ∃ g, IsoTp.wait_any c2 (IsoTp.send_frame_with_addressing c1 f :: rest)
        = some (g, rest) ∧ g.data = f.data := by
  obtain ⟨g, he, hd⟩ := recv_of_wire c1 c2 f hmode hae hlt
  exact ⟨g, by simp only [IsoTp.wait_any, he], hd⟩

theorem apply_padding_getD_one2 (cfg : IsoTp.IsoTpConfig) (x y : Nat) (l : List Nat) :
    (IsoTp.apply_padding cfg (x :: y :: l)).getD 1 0 = y := by
  unfold IsoTp.apply_padding
  split <;> simp [List.getD]

/-- Receiving the Single Frame wire image of a short payload returns exactly
that payload and emits no Flow Control frame. -/
theorem receive_sf_wire (cfgS cfgR : IsoTp.IsoTpConfig) (b : List Nat)
    (h1 : 1 ≤ b.length) (hsf : b.length ≤ 7)
    (hmode : cfgS.address_mode = cfgR.address_mode)
    (hae : cfgS.address_extension = cfgR.address_extension)
    (haeR : cfgR.address_extension < 256) :
    IsoTp.receive { config := cfgR, is_open := true }
        [IsoTp.send_single_frame cfgS b] = ([], .ok b) := by
  obtain ⟨g, hw, hd⟩ := wait_any_wire cfgS cfgR
    { id := cfgS.tx_id
      data := IsoTp.apply_padding cfgS ((IsoTp.SF_PCI ||| b.length % 256) :: b)
      timestamp := 0, is_extended := false, is_fd := false } [] hmode hae haeR
  have hw2 : IsoTp.wait_any cfgR [IsoTp.send_single_frame cfgS b] = some (g, []) := hw
  have hlen256 : b.length % 256 = b.length := Nat.mod_eq_of_lt (by omega)
  have hhead : g.data.headD 0 = b.length := by
    rw [hd, apply_padding_head]
    simp [IsoTp.SF_PCI, hlen256]
  have hgne : g.data ≠ [] := by rw [hd]; exact apply_padding_ne_nil _ _ _
  have hglen : b.length + 1 ≤ g.data.length := by
    rw [hd, apply_padding_length]
    simp only [List.length_cons]
    split <;> omega
  unfold IsoTp.receive
  simp only [hw2, Bool.not_true]
  rw [if_neg (by simp)]
  rw [if_neg (by simp [hgne])]
  rw [if_pos (by rw [hhead]; simp [IsoTp.SF_PCI]; exact and240_of_lt16 (by omega))]
  unfold IsoTp.receive_single_frame
  rw [hhead, and15_of_lt16 (by omega)]
  rw [if_neg (by omega)]
  rw [hd, apply_padding_drop_one_take cfgS _ _ _ (le_refl _), List.take_length]

/-- C1: ISO-TP round trip.  For every payload of 1..4095 bytes and every
pair of sender/receiver configurations sharing the address mode and
extension (all block sizes, STmin bytes and padding settings), the sender —
fed exactly the Flow Control frames the receiver emits — completes with Ok,
and the receiver, consuming exactly the frames the sender put on the wire,
returns exactly the payload while emitting exactly those Flow Control
frames. -/
theorem c1_isotp_round_trip (cfgS cfgR : IsoTp.IsoTpConfig) (b : List Nat)
    (h1 : 1 ≤ b.length) (h2 : b.length ≤ 4095)
    (hmode : cfgS.address_mode = cfgR.address_mode)
    (hae : cfgS.address_extension = cfgR.address_extension)
    (haeR : cfgR.address_extension < 256) :
    ∃ frames : List Frame,
      IsoTp.send { config := cfgS, is_open := true } b
          (List.replicate (IsoTp.fc_total cfgR b) (IsoTp.fc_wire cfgR))
        = ({ config := cfgS, is_open := true }, frames, .ok ())
      ∧ IsoTp.receive { config := cfgR, is_open := true } frames
        = (List.replicate (IsoTp.fc_total cfgR b) (IsoTp.fc_wire cfgR), .ok b) := by
  have hemp : b.isEmpty = false := by
    cases b with
    | nil => simp at h1
    | cons x xs => rfl
  by_cases hsf : b.length ≤ 7
  case pos =>
    have hfc0 : IsoTp.fc_total cfgR b = 0 := by
      unfold IsoTp.fc_total
      rw [if_pos hsf]
    refine ⟨[IsoTp.send_single_frame cfgS b], ?_, ?_⟩
    · unfold IsoTp.send
      simp only [hemp, Bool.not_true]
      rw [if_neg (by simp), if_neg (by simp), if_pos hsf]
    · rw [hfc0]
      simpa using receive_sf_wire cfgS cfgR b h1 hsf hmode hae haeR
  case neg =>
    have h8 : 8 ≤ b.length := by omega
    have hfc_total : IsoTp.fc_total cfgR b
        = 1 + IsoTp.fc_needed b.length 6 0 cfgR.block_size := by
      unfold IsoTp.fc_total
      rw [if_neg hsf]
    obtain ⟨F, hsend, hrecv⟩ := cf_round_trip cfgS cfgR b hmode hae haeR
      (b.length - 6) 6 1 0 rfl (by omega) (by omega)
    obtain ⟨gf, hwf, hgfd⟩ := wait_fc_wire cfgS cfgR
      (List.replicate (IsoTp.fc_needed b.length 6 0 cfgR.block_size) (IsoTp.fc_wire cfgR))
      hmode hae haeR
    have hbs : gf.data.getD 1 0 = cfgR.block_size := by
      rw [hgfd]
      exact apply_padding_getD_one2 _ _ _ _
    -- the First Frame as seen by the receiver
    obtain ⟨g, hw, hd⟩ := wait_any_wire cfgS cfgR
      { id := cfgS.tx_id
        data := IsoTp.apply_padding cfgS
          ((IsoTp.FF_PCI ||| (b.length >>> 8) % 256) :: (b.length % 256) :: b.take 6)
        timestamp := 0, is_extended := false, is_fd := false } F hmode hae haeR
    have hw2 : IsoTp.wait_any cfgR (IsoTp.ff_frame cfgS b :: F) = some (g, F) := hw
    have hult : b.length >>> 8 < 16 := by
      rw [Nat.shiftRight_eq_div_pow]
      omega
    have hu : (b.length >>> 8) % 256 = b.length >>> 8 := Nat.mod_eq_of_lt (by omega)
    have hhead : g.data.headD 0 = IsoTp.FF_PCI ||| b.length >>> 8 := by
      rw [hd, apply_padding_head, hu]
    have hgne : g.data ≠ [] := by rw [hd]; exact apply_padding_ne_nil _ _ _
    have hlen6 : (b.take 6).length = 6 := by
      simp [List.length_take]
      omega
    have hfflen : IsoTp.ff_len g = b.length := by
      unfold IsoTp.ff_len
      rw [hhead]
      have hlo : (IsoTp.FF_PCI ||| b.length >>> 8) &&& 0x0F = b.length >>> 8 :=
        or16_and_lo hult
      rw [hlo, hd, apply_padding_getD_one2]
      rw [Nat.shiftLeft_eq, Nat.shiftRight_eq_div_pow, Nat.mul_comm]
      calc 2 ^ 8 * (b.length / 2 ^ 8) ||| b.length % 256
          = 2 ^ 8 * (b.length / 2 ^ 8) + b.length % 2 ^ 8 :=
            (Nat.mul_add_lt_is_or (Nat.mod_lt _ (by norm_num)) _).symm
        _ = b.length := Nat.div_add_mod _ _
    have hacc : (g.data.drop 2).take 6 = b.take 6 := by
      rw [hd, apply_padding_drop_two_take cfgS _ _ _ _ (by rw [hlen6]),
        List.take_take, Nat.min_self]
    refine ⟨IsoTp.ff_frame cfgS b :: F, ?_, ?_⟩
    · unfold IsoTp.send
      simp only [hemp, Bool.not_true]
      rw [if_neg (by simp), if_neg (by simp), if_neg hsf]
      unfold IsoTp.send_multi_frame
      rw [hfc_total, Nat.add_comm 1, List.replicate_succ]
      simp only [hwf, hbs, hsend]
    · unfold IsoTp.receive
      simp only [hw2, Bool.not_true]
      rw [if_neg (by simp)]
      rw [if_neg (by simp [hgne])]
      rw [if_neg (by
        rw [hhead]; simp only [IsoTp.FF_PCI, IsoTp.SF_PCI]
        rw [or16_and_hi hult]; decide)]
      rw [if_pos (by
        rw [hhead]; simp only [IsoTp.FF_PCI]
        rw [or16_and_hi hult])]
      unfold IsoTp.receive_multi_frame
      rw [hfflen, hacc]
      rw [if_neg (by omega)]
      rw [hrecv]
      rw [hfc_total, Nat.add_comm 1, List.replicate_succ]

end LibAutomotive

namespace LibAutomotive

/-- C1 witness: the round-trip theorem applied to a concrete 10-byte
payload on the concrete sample configuration — receiving what send put on
the wire returns exactly the payload. -/
theorem c1_isotp_round_trip_witness :
    (IsoTp.receive { config := sample_isotp_config, is_open := true }
        (IsoTp.send { config := sample_isotp_config, is_open := true }
          [0x42, 0x42, 0x42, 0x42, 0x42, 0x42, 0x42, 0x42, 0x42, 0x42]
          (List.replicate
            (IsoTp.fc_total sample_isotp_config
              [0x42, 0x42, 0x42, 0x42, 0x42, 0x42, 0x42, 0x42, 0x42, 0x42])
            (IsoTp.fc_wire sample_isotp_config))).2.1).2
      = .ok [0x42, 0x42, 0x42, 0x42, 0x42, 0x42, 0x42, 0x42, 0x42, 0x42] := by
  obtain ⟨F, hs, hr⟩ := c1_isotp_round_trip sample_isotp_config sample_isotp_config
    [0x42, 0x42, 0x42, 0x42, 0x42, 0x42, 0x42, 0x42, 0x42, 0x42]
    (by decide) (by decide) rfl rfl (by decide)
  have hF : (IsoTp.send { config := sample_isotp_config, is_open := true }
      [0x42, 0x42, 0x42, 0x42, 0x42, 0x42, 0x42, 0x42, 0x42, 0x42]
      (List.replicate
        (IsoTp.fc_total sample_isotp_config
          [0x42, 0x42, 0x42, 0x42, 0x42, 0x42, 0x42, 0x42, 0x42, 0x42])
        (IsoTp.fc_wire sample_isotp_config))).2.1 = F := by
    rw [hs]
  rw [hF, hr]

end LibAutomotive
